import Mathlib

/-!
Verification development for the MFI credit-risk dashboard
(`src/model_1.py`).  The dashboard loads a borrower table, validates the
presence of seven required columns, derives three columns
(income-to-loan ratio, risk score, risk level) and filters the rows by
region and by risk level.  Numeric cells are modelled as exact rationals
embedded in an IEEE-style value domain `Val` (finite, plus/minus
infinity, NaN) so that the unguarded division `income / loan_amount`
from line 51 of the source keeps its float semantics: `x / 0` is
`+inf` / `-inf` / `NaN` according to the sign of `x`.
-/

/-- The three labels of `pd.cut(..., labels=["Low", "Medium", "High"])`
(source lines 54-55). -/
inductive RiskLevel where
  | low
  | medium
  | high
deriving DecidableEq, Repr

/-- IEEE-style numeric cell: a finite rational, an infinity, or NaN.
This is the codomain of the pandas column arithmetic of lines 51-53. -/
inductive Val where
  | fin (q : ℚ)
  | posInf
  | negInf
  | nan
deriving DecidableEq, Repr

/-- Float division as performed by `df["income"] / df["loan_amount"]`
(source line 51): ordinary division when the denominator is nonzero,
otherwise `±inf` or `NaN` according to the sign of the numerator. -/
def fdiv (x y : ℚ) : Val :=
  if y ≠ 0 then .fin (x / y)
  else if 0 < x then .posInf
  else if x < 0 then .negInf
  else .nan

/-- Multiplication of a cell by a finite rational constant, as in
`... * 0.3` and `... * 0.01` on lines 52-53. -/
def Val.scale (c : ℚ) : Val → Val
  | .fin q => .fin (q * c)
  | .posInf => if 0 < c then .posInf else if c < 0 then .negInf else .nan
  | .negInf => if 0 < c then .negInf else if c < 0 then .posInf else .nan
  | .nan => .nan

/-- IEEE-style addition of two cells (`+` on line 52). -/
def Val.add : Val → Val → Val
  | .nan, _ => .nan
  | _, .nan => .nan
  | .fin a, .fin b => .fin (a + b)
  | .fin _, .posInf => .posInf
  | .fin _, .negInf => .negInf
  | .posInf, .fin _ => .posInf
  | .negInf, .fin _ => .negInf
  | .posInf, .posInf => .posInf
  | .negInf, .negInf => .negInf
  | .posInf, .negInf => .nan
  | .negInf, .posInf => .nan

/-- The clamp `np.clip(v, 0, 1)` (source lines 52-53): finite values are clamped
to `[0, 1]`, `+inf` becomes `1`, `-inf` becomes `0`, NaN propagates. -/
def Val.clip01 : Val → Val
  | .fin q => .fin (max 0 (min 1 q))
  | .posInf => .fin 1
  | .negInf => .fin 0
  | .nan => .nan

/-- The bucketing `pd.cut(risk_score, bins=[0, 0.3, 0.7, 1], labels=["Low", "Medium",
"High"])` (source lines 54-55).  With pandas defaults (`right=True`,
`include_lowest=False`) the bins are the half-open intervals
`(0, 0.3]`, `(0.3, 0.7]`, `(0.7, 1]`; values outside every bin
(including `0` itself and NaN) receive no label. -/
def cutRisk : Val → Option RiskLevel
  | .fin q =>
      if 0 < q ∧ q ≤ 3/10 then some .low
      else if 3/10 < q ∧ q ≤ 7/10 then some .medium
      else if 7/10 < q ∧ q ≤ 1 then some .high
      else none
  | _ => none

/-- One borrower record with the seven required columns
(source lines 29-30). -/
structure Row where
  gender : String
  age : ℚ
  income : ℚ
  loan_amount : ℚ
  occupation : String
  loan_history : String
  region : String
deriving DecidableEq, Repr

/-- A borrower record after the feature-engineering block of lines
50-55 appended the three derived columns. -/
structure DerivedRow extends Row where
  income_to_loan : Val
  risk_score : Val
  risk_level : Option RiskLevel
deriving DecidableEq, Repr

/-- The feature-engineering block (source lines 50-55) applied to one
row: `income_to_loan_ratio = income / loan_amount`,
`risk_score = clip(income_to_loan_ratio * 0.3 + age * 0.01, 0, 1)`,
`risk_level = pd.cut(risk_score, [0, 0.3, 0.7, 1])`. -/
def deriveRow (r : Row) : DerivedRow :=
  let ratio := fdiv r.income r.loan_amount
  let score := Val.clip01 (Val.add (Val.scale (3/10) ratio) (Val.scale (1/100) (.fin r.age)))
  { r with
    income_to_loan := ratio
    risk_score := score
    risk_level := cutRisk score }

/-- The derivation applied to the whole loaded table, row by row. -/
def deriveAll (df : List Row) : List DerivedRow :=
  df.map deriveRow

/-- The list `required_columns` (source lines 29-30). -/
def requiredColumns : List String :=
  ["gender", "age", "income", "loan_amount", "occupation", "loan_history", "region"]

/-- The computation `missing_cols = [col for col in required_columns if col not in df.columns]`
(source line 44), given the column names of the loaded table. -/
def missingCols (cols : List String) : List String :=
  requiredColumns.filter (fun c => ¬ c ∈ cols)

/-- The validate-then-derive front of the script (source lines 44-58):
if any required column is missing, report the joined list of missing
names and halt (`st.error` + `st.stop`, lines 46-47); otherwise run the
feature-engineering block on every row. -/
def loadAndDerive (cols : List String) (df : List Row) : Except String (List DerivedRow) :=
  let missing := missingCols cols
  if missing = [] then .ok (deriveAll df)
  else .error ("Missing required columns: " ++ String.intercalate ", " missing)

/-- The sidebar region filter (source lines 62-65): the `isin` mask is
applied only when the multiselect list is non-empty
(`if selected_regions:`); an empty selection leaves the table as is. -/
def applyRegionFilter (selected : List String) (df : List DerivedRow) : List DerivedRow :=
  if selected = [] then df
  else df.filter (fun r => r.region ∈ selected)

/-- The value of the risk-level selectbox of source line 165:
`All` or one of the three labels. -/
inductive LevelFilter where
  | all
  | only (l : RiskLevel)
deriving DecidableEq, Repr

/-- The table `filtered_df = df if selected_level == "All" else
df[df["risk_level"] == selected_level]` (source lines 167-168). -/
def applyLevelFilter : LevelFilter → List DerivedRow → List DerivedRow
  | .all, df => df
  | .only l, df => df.filter (fun r => r.risk_level = some l)

/-- Descending-score order used to model
`df.sort_values(by="risk_score", ascending=False)` (source lines
141-142): higher scores first, NaN placed last (pandas
`na_position="last"`). -/
def descLE : Val → Val → Bool
  | _, .nan => true
  | .nan, _ => false
  | .posInf, _ => true
  | _, .posInf => false
  | .fin a, .fin b => b ≤ a
  | .fin _, .negInf => true
  | .negInf, .fin _ => false
  | .negInf, .negInf => true

/-- Insertion of one (position, row) pair into a list already in
descending score order. -/
def insertDesc (p : ℕ × DerivedRow) : List (ℕ × DerivedRow) → List (ℕ × DerivedRow)
  | [] => [p]
  | q :: rest => if descLE p.2.risk_score q.2.risk_score then p :: q :: rest
                 else q :: insertDesc p rest

/-- Sorting of (position, row) pairs into descending score order. -/
def sortDesc : List (ℕ × DerivedRow) → List (ℕ × DerivedRow)
  | [] => []
  | p :: rest => insertDesc p (sortDesc rest)

/-- The list `df.sort_values(by="risk_score", ascending=False).head(5).index.tolist()`
(source lines 141-142), with rows addressed by their position in the
filtered table. -/
def topIndices (df : List DerivedRow) : List ℕ :=
  ((sortDesc df.enum).take 5).map (fun p => p.1)

/-- Outcome of the loan-decision-recommendation selector block
(source lines 141-157). -/
inductive RecOutcome where
  | pick (pos : ℕ)
  | warnFirst
  | errorNone
deriving DecidableEq, Repr

/-- The branch logic of source lines 145-153:
`if top_indices and top_indices[0] in select_options:` take the
position of the top-scored row, with no warning;
`elif select_options:` warn and default to position 0;
`else:` report an error and offer no selection. -/
def recommendBranch (df : List DerivedRow) : RecOutcome :=
  let selectOptions := List.range df.length
  match (topIndices df).head? with
  | some i =>
      if i ∈ selectOptions then .pick (selectOptions.indexOf i)
      else if selectOptions ≠ [] then .warnFirst
      else .errorNone
  | none =>
      if selectOptions ≠ [] then .warnFirst
      else .errorNone

/-- Modelled from the spec (§2, §8): the bucketing the specification
describes, `risk_score ≤ 0.3 → Low`, `0.3 < risk_score ≤ 0.7 → Medium`,
`risk_score > 0.7 → High`, total on all scores. -/
def specBucket (q : ℚ) : RiskLevel :=
  if q ≤ 3/10 then .low
  else if q ≤ 7/10 then .medium
  else .high

/-- Modelled from the spec (§8): the property "risk_score ∈ [0,1]" as a
decidable check on a cell — true exactly for a finite rational in the
closed unit interval (infinities and NaN are not in [0,1]). -/
def Val.inUnit : Val → Bool
  | .fin q => decide (0 ≤ q ∧ q ≤ 1)
  | _ => false
/-- Construction of a borrower row with the given age, income, loan
amount and region (the categorical columns do not enter the
derivation). -/
def mkRow (age income loan : ℚ) (region : String) : Row :=
  { gender := "F", age := age, income := income, loan_amount := loan,
    occupation := "Trader", loan_history := "good", region := region }


/-! ### Helper lemmas -/

/-- Clipping that lands on a finite value lands in `[0, 1]`. -/
theorem clip01_fin_bounds (v : Val) (q : ℚ) (h : Val.clip01 v = .fin q) :
    0 ≤ q ∧ q ≤ 1 := by
  cases v with
  | fin p =>
      simp only [Val.clip01, Val.fin.injEq] at h
      subst h
      refine ⟨le_max_left 0 _, max_le (by norm_num) (min_le_left 1 p)⟩
  | posInf =>
      simp only [Val.clip01, Val.fin.injEq] at h
      subst h
      norm_num
  | negInf =>
      simp only [Val.clip01, Val.fin.injEq] at h
      subst h
      norm_num
  | nan => simp [Val.clip01] at h

/-- The risk score of a derived row is the clipped linear form. -/
theorem riskScore_shape (r : Row) :
    (deriveRow r).risk_score =
      Val.clip01 (Val.add (Val.scale (3/10) (fdiv r.income r.loan_amount))
        (Val.scale (1/100) (.fin r.age))) := rfl

/-- A finite risk score always lies in `[0, 1]`. -/
theorem riskScore_fin_bounds (r : Row) (q : ℚ)
    (h : (deriveRow r).risk_score = .fin q) : 0 ≤ q ∧ q ≤ 1 :=
  clip01_fin_bounds _ q h

/-- The risk level of a derived row is the cut of its risk score. -/
theorem riskLevel_eq_cut (r : Row) :
    (deriveRow r).risk_level = cutRisk ((deriveRow r).risk_score) := rfl

/-- When the loan amount is nonzero, the risk score is the explicit
clipped rational. -/
theorem riskScore_of_loan_ne_zero (r : Row) (h : r.loan_amount ≠ 0) :
    (deriveRow r).risk_score =
      .fin (max 0 (min 1 (r.income / r.loan_amount * (3/10) + r.age * (1/100)))) := by
  simp [deriveRow, fdiv, h, Val.scale, Val.add, Val.clip01]

/-- Characterisation of the pandas cut on a value already known to lie
in `[0, 1]`: the three half-open bins, with `0` itself unlabelled. -/
theorem cutRisk_fin_char (q : ℚ) (h0 : 0 ≤ q) (h1 : q ≤ 1) :
    (cutRisk (.fin q) = some RiskLevel.low ↔ 0 < q ∧ q ≤ 3/10) ∧
    (cutRisk (.fin q) = some RiskLevel.medium ↔ 3/10 < q ∧ q ≤ 7/10) ∧
    (cutRisk (.fin q) = some RiskLevel.high ↔ 7/10 < q) ∧
    (cutRisk (.fin q) = none ↔ q = 0) := by
  have hcut : cutRisk (.fin q) =
      (if 0 < q ∧ q ≤ 3/10 then some RiskLevel.low
       else if 3/10 < q ∧ q ≤ 7/10 then some RiskLevel.medium
       else if 7/10 < q ∧ q ≤ 1 then some RiskLevel.high
       else none) := rfl
  rw [hcut]
  split_ifs with hA hB hC <;>
    refine ⟨?_, ?_, ?_, ?_⟩ <;> constructor <;> intro hx <;>
      simp_all <;> try linarith
  rcases eq_or_lt_of_le h0 with h | h
  · exact h.symm
  · exact absurd (hB (hA h)) (not_lt.mpr hC)

/-! ### C1 — risk-level thresholds -/

/-- C1 counterexample: the claim "risk_level is Low iff
risk_score ≤ 0.3" is false.  The row with age 0, income 0 and loan
amount 1 has risk_score exactly 0, which is ≤ 0.3, yet `pd.cut` with
bins `[0, 0.3, 0.7, 1]` leaves a score of 0 outside every bin, so the
row's label is `none` (pandas NaN) rather than `Low`. -/
theorem C1_zero_score_unlabelled :
    (deriveRow (mkRow 0 0 1 "Ashanti")).risk_score = Val.fin 0 ∧
    ((0 : ℚ) ≤ 3/10) ∧
    (deriveRow (mkRow 0 0 1 "Ashanti")).risk_level = none := by
  norm_num [deriveRow, fdiv, Val.scale, Val.add, Val.clip01, cutRisk, mkRow]

/-- C1 (amended): for every row whose derived risk_score is the finite
value q, risk_level is Low iff 0 < q ≤ 0.3, Medium iff 0.3 < q ≤ 0.7,
High iff q > 0.7, and the row is unlabelled iff q = 0 (so every row
with a risk_score in (0, 1] receives exactly one of the three labels,
while a score of exactly 0 receives none). -/
theorem C1_risk_level_thresholds (r : Row) (q : ℚ)
    (h : (deriveRow r).risk_score = Val.fin q) :
    ((deriveRow r).risk_level = some RiskLevel.low ↔ 0 < q ∧ q ≤ 3/10) ∧
    ((deriveRow r).risk_level = some RiskLevel.medium ↔ 3/10 < q ∧ q ≤ 7/10) ∧
    ((deriveRow r).risk_level = some RiskLevel.high ↔ 7/10 < q) ∧
    ((deriveRow r).risk_level = none ↔ q = 0) := by
  obtain ⟨h0, h1⟩ := riskScore_fin_bounds r q h
  rw [riskLevel_eq_cut, h]
  exact cutRisk_fin_char q h0 h1

/-- C1 witness: the thresholds theorem applied to the concrete row
with age 50, income 1000, loan amount 10000, whose risk score is
0.53. -/
theorem C1_risk_level_thresholds_witness :
    ((deriveRow (mkRow 50 1000 10000 "Volta")).risk_level = some RiskLevel.low ↔
      0 < (53/100 : ℚ) ∧ (53/100 : ℚ) ≤ 3/10) ∧
    ((deriveRow (mkRow 50 1000 10000 "Volta")).risk_level = some RiskLevel.medium ↔
      3/10 < (53/100 : ℚ) ∧ (53/100 : ℚ) ≤ 7/10) ∧
    ((deriveRow (mkRow 50 1000 10000 "Volta")).risk_level = some RiskLevel.high ↔
      7/10 < (53/100 : ℚ)) ∧
    ((deriveRow (mkRow 50 1000 10000 "Volta")).risk_level = none ↔
      (53/100 : ℚ) = 0) :=
  C1_risk_level_thresholds (mkRow 50 1000 10000 "Volta") (53/100)
    (by norm_num [deriveRow, fdiv, Val.scale, Val.add, Val.clip01, mkRow])

/-! ### C8 — the worked example row -/

/-- C8: the row with age 40, income 3000, loan amount 10000 derives
income_to_loan_ratio = 0.3, risk_score = 0.49 and risk_level Medium. -/
theorem C8_example_row :
    (deriveRow (mkRow 40 3000 10000 "Ashanti")).income_to_loan = Val.fin (3/10) ∧
    (deriveRow (mkRow 40 3000 10000 "Ashanti")).risk_score = Val.fin (49/100) ∧
    (deriveRow (mkRow 40 3000 10000 "Ashanti")).risk_level = some RiskLevel.medium := by
  norm_num [deriveRow, fdiv, Val.scale, Val.add, Val.clip01, cutRisk, mkRow]

/-! ### C2 — the derivation pipeline -/

/-- C2 counterexample: the derivation does not bucket every risk score
into {Low, Medium, High}.  The row with age 0, income 0 and loan
amount 5000 has risk_score exactly 0; the spec's threshold bucketing
would give Low, but the code's `pd.cut` leaves the row unlabelled. -/
theorem C2_zero_score_not_bucketed :
    (deriveRow (mkRow 0 0 5000 "Northern")).risk_score = Val.fin 0 ∧
    specBucket 0 = RiskLevel.low ∧
    (deriveRow (mkRow 0 0 5000 "Northern")).risk_level = none := by
  refine ⟨?_, ?_, ?_⟩
  · norm_num [deriveRow, fdiv, Val.scale, Val.add, Val.clip01, mkRow]
  · norm_num [specBucket]
  · norm_num [deriveRow, fdiv, Val.scale, Val.add, Val.clip01, cutRisk, mkRow]

/-- C2 (amended): for every row, the derivation computes
income_to_loan_ratio = income / loan_amount (with float division
semantics) and risk_score = clip(ratio * 0.3 + age * 0.01, 0, 1), and
every nonzero finite risk_score is bucketed into {Low, Medium, High}
exactly at the spec's fixed thresholds 0.3 and 0.7; a risk score of
exactly 0 (or a NaN score) is left unbucketed. -/
theorem C2_derivation_and_bucketing (r : Row) :
    (deriveRow r).income_to_loan = fdiv r.income r.loan_amount ∧
    (deriveRow r).risk_score =
      Val.clip01 (Val.add (Val.scale (3/10) (fdiv r.income r.loan_amount))
        (Val.scale (1/100) (.fin r.age))) ∧
    ∀ q : ℚ, (deriveRow r).risk_score = Val.fin q → q ≠ 0 →
      (deriveRow r).risk_level = some (specBucket q) := by
  refine ⟨rfl, rfl, ?_⟩
  intro q h hq
  obtain ⟨h0, h1⟩ := riskScore_fin_bounds r q h
  have hpos : 0 < q := lt_of_le_of_ne h0 (Ne.symm hq)
  obtain ⟨hl, hm, hh, -⟩ := cutRisk_fin_char q h0 h1
  rw [riskLevel_eq_cut, h]
  unfold specBucket
  split_ifs with hA hB
  · exact hl.mpr ⟨hpos, hA⟩
  · exact hm.mpr ⟨not_le.mp hA, hB⟩
  · exact hh.mpr (not_le.mp hB)

/-- C2 witness: the amended theorem at the concrete row with age 80,
income 2000, loan amount 10000, whose risk score 0.86 is bucketed as
the spec bucket of 0.86, namely High. -/
theorem C2_derivation_and_bucketing_witness :
    (deriveRow (mkRow 80 2000 10000 "Volta")).risk_level =
      some (specBucket (43/50)) :=
  (C2_derivation_and_bucketing (mkRow 80 2000 10000 "Volta")).2.2 (43/50)
    (by norm_num [deriveRow, fdiv, Val.scale, Val.add, Val.clip01, mkRow])
    (by norm_num)

/-! ### C3 — the risk score stays in the unit interval -/

/-- C3 counterexample: with income 0 and loan amount 0 the derived
risk score is NaN, which is not a finite value in [0, 1] — the spec's
membership check on it is false; the claim "for every row, regardless
of degenerate values, risk_score ∈ [0, 1]" therefore fails. -/
theorem C3_nan_score_outside_unit :
    (deriveRow (mkRow 25 0 0 "Volta")).risk_score = Val.nan ∧
    Val.inUnit ((deriveRow (mkRow 25 0 0 "Volta")).risk_score) = false :=
  ⟨rfl, rfl⟩

/-- C3 (amended): for every row except the fully degenerate one with
income = 0 and loan_amount = 0 (whose score is NaN), the derived risk
score is a finite value in [0, 1], regardless of input magnitudes. -/
theorem C3_risk_score_in_unit (r : Row)
    (h : ¬ (r.income = 0 ∧ r.loan_amount = 0)) :
    ∃ q : ℚ, (deriveRow r).risk_score = Val.fin q ∧ 0 ≤ q ∧ q ≤ 1 := by
  by_cases hl : r.loan_amount = 0
  · have hi : r.income ≠ 0 := fun hi => h ⟨hi, hl⟩
    rcases hi.lt_or_lt with hneg | hpos
    · refine ⟨0, ?_, le_refl 0, by norm_num⟩
      have hdiv : fdiv r.income r.loan_amount = Val.negInf := by
        simp [fdiv, hl, hneg, asymm hneg]
      rw [riskScore_shape, hdiv]
      norm_num [Val.scale, Val.add, Val.clip01]
    · refine ⟨1, ?_, by norm_num, le_refl 1⟩
      have hdiv : fdiv r.income r.loan_amount = Val.posInf := by
        simp [fdiv, hl, hpos]
      rw [riskScore_shape, hdiv]
      norm_num [Val.scale, Val.add, Val.clip01]
  · refine ⟨max 0 (min 1 (r.income / r.loan_amount * (3/10) + r.age * (1/100))),
      riskScore_of_loan_ne_zero r hl, le_max_left _ _, ?_⟩
    exact max_le (by norm_num) (min_le_left _ _)

/-- C3 witness: the amended theorem at the concrete row with age 33,
income 1200, loan amount 6000. -/
theorem C3_risk_score_in_unit_witness :
    ∃ q : ℚ, (deriveRow (mkRow 33 1200 6000 "Bono")).risk_score = Val.fin q ∧
      0 ≤ q ∧ q ≤ 1 :=
  C3_risk_score_in_unit (mkRow 33 1200 6000 "Bono") (by norm_num [mkRow])

/-! ### C4 — the region filter -/

/-- C4 counterexample: for the empty region set the claim demands an
empty result (no region belongs to the empty set), but the source only
applies the `isin` mask when the selection is non-empty, so the whole
non-empty table is kept. -/
theorem C4_empty_selection_keeps_rows :
    applyRegionFilter [] (deriveAll [mkRow 40 3000 10000 "Ashanti"]) =
      deriveAll [mkRow 40 3000 10000 "Ashanti"] ∧
    (deriveAll [mkRow 40 3000 10000 "Ashanti"]).length = 1 ∧
    List.elem (deriveRow (mkRow 40 3000 10000 "Ashanti")).region
      ([] : List String) = false :=
  ⟨rfl, rfl, rfl⟩

/-- C4 (amended): for every non-empty region set R the filtered table
holds exactly the rows whose region is in R; for the empty set the
filter is skipped and every row is kept. -/
theorem C4_region_filter_exact (R : List String) (df : List DerivedRow) :
    (R = [] → applyRegionFilter R df = df) ∧
    (R ≠ [] → ∀ r : DerivedRow,
      r ∈ applyRegionFilter R df ↔ r ∈ df ∧ r.region ∈ R) := by
  constructor
  · intro h
    simp [applyRegionFilter, h]
  · intro h r
    simp [applyRegionFilter, h, List.mem_filter]

/-- C4 witness: the amended theorem at a one-row table, once with the
empty selection and once with the selection consisting of the row's
own region. -/
theorem C4_region_filter_exact_witness :
    (applyRegionFilter [] (deriveAll [mkRow 22 900 3000 "Volta"]) =
      deriveAll [mkRow 22 900 3000 "Volta"]) ∧
    ((deriveRow (mkRow 22 900 3000 "Volta")) ∈
        applyRegionFilter ["Volta"] (deriveAll [mkRow 22 900 3000 "Volta"]) ↔
      (deriveRow (mkRow 22 900 3000 "Volta")) ∈
        deriveAll [mkRow 22 900 3000 "Volta"] ∧
      (deriveRow (mkRow 22 900 3000 "Volta")).region ∈ ["Volta"]) :=
  ⟨(C4_region_filter_exact [] (deriveAll [mkRow 22 900 3000 "Volta"])).1 rfl,
   (C4_region_filter_exact ["Volta"] (deriveAll [mkRow 22 900 3000 "Volta"])).2
     (by simp) (deriveRow (mkRow 22 900 3000 "Volta"))⟩

/-! ### C5 — missing-column validation -/

/-- C5: whenever at least one required column is missing from the
loaded table, the pipeline halts with an error before any derivation,
and the reported list is exactly the set of missing required column
names: it holds a name iff that name is required and absent. -/
theorem C5_missing_columns_halt (cols : List String) (df : List Row)
    (h : missingCols cols ≠ []) :
    loadAndDerive cols df =
      .error ("Missing required columns: " ++
        String.intercalate ", " (missingCols cols)) ∧
    ∀ c : String, c ∈ missingCols cols ↔ (c ∈ requiredColumns ∧ ¬ c ∈ cols) := by
  constructor
  · simp [loadAndDerive, h]
  · intro c
    simp [missingCols, List.mem_filter]

/-- C5 witness: loading a table that only has the columns gender,
income and region halts with the four missing names reported. -/
theorem C5_missing_columns_halt_witness :
    loadAndDerive ["gender", "income", "region"] [] =
      .error ("Missing required columns: " ++
        String.intercalate ", " (missingCols ["gender", "income", "region"])) :=
  (C5_missing_columns_halt ["gender", "income", "region"] []
    (by simp [missingCols, requiredColumns])).1

/-! ### C6 — the recommendation selector branches -/

/-- C6: divergence between the code and the claimed selector fallback.
The one-row table below consists of a single Low-risk borrower, so it
has zero High-risk rows and is non-empty; by the claim the selector
block should warn and substitute the first borrower, but the first
branch of source line 145 only tests that the top-5-by-score index
list is non-empty and its head is a valid option, which holds for
every non-empty table, so the code silently picks the top-scored
borrower and the warning branch is never reached.  The second half of
the claim does hold: on an empty table the block reports an error and
offers no selection. -/
theorem C6_no_warning_without_high_risk :
    (deriveRow (mkRow 10 100 10000 "Ashanti")).risk_level = some RiskLevel.low ∧
    (deriveAll [mkRow 10 100 10000 "Ashanti"]).length = 1 ∧
    recommendBranch (deriveAll [mkRow 10 100 10000 "Ashanti"]) = RecOutcome.pick 0 ∧
    recommendBranch ([] : List DerivedRow) = RecOutcome.errorNone := by
  refine ⟨?_, rfl, rfl, rfl⟩
  norm_num [deriveRow, fdiv, Val.scale, Val.add, Val.clip01, cutRisk, mkRow]

/-! ### C7 — unguarded division by zero -/

/-- C7: for every row with loan_amount = 0 the unguarded division is
reachable: with positive income the ratio is +infinity and the risk
score clips to 1; with zero income the ratio and hence the risk score
are NaN. -/
theorem C7_division_by_zero (r : Row) (h : r.loan_amount = 0) :
    (0 < r.income →
      (deriveRow r).income_to_loan = Val.posInf ∧
      (deriveRow r).risk_score = Val.fin 1) ∧
    (r.income = 0 →
      (deriveRow r).income_to_loan = Val.nan ∧
      (deriveRow r).risk_score = Val.nan) := by
  constructor
  · intro hpos
    have hdiv : fdiv r.income r.loan_amount = Val.posInf := by
      simp [fdiv, h, hpos]
    refine ⟨hdiv, ?_⟩
    rw [riskScore_shape, hdiv]
    norm_num [Val.scale, Val.add, Val.clip01]
  · intro hzero
    have hdiv : fdiv r.income r.loan_amount = Val.nan := by
      norm_num [fdiv, h, hzero]
    refine ⟨hdiv, ?_⟩
    rw [riskScore_shape, hdiv]
    rfl

/-- C7 witness: the theorem at the row with income 3000 and loan
amount 0 (infinite ratio, score clipped to 1) and at the row with
income 0 and loan amount 0 (NaN ratio and score). -/
theorem C7_division_by_zero_witness :
    (deriveRow (mkRow 30 3000 0 "Ashanti")).income_to_loan = Val.posInf ∧
    (deriveRow (mkRow 30 3000 0 "Ashanti")).risk_score = Val.fin 1 ∧
    (deriveRow (mkRow 45 0 0 "Volta")).income_to_loan = Val.nan ∧
    (deriveRow (mkRow 45 0 0 "Volta")).risk_score = Val.nan := by
  obtain ⟨h1, h2⟩ :=
    (C7_division_by_zero (mkRow 30 3000 0 "Ashanti") rfl).1 (by norm_num [mkRow])
  obtain ⟨h3, h4⟩ := (C7_division_by_zero (mkRow 45 0 0 "Volta") rfl).2 rfl
  exact ⟨h1, h2, h3, h4⟩

/-! ### C9 — frame of the derivation and the filters -/

/-- C9: the derivation only appends the three derived fields — mapping
each derived row back to its seven original columns recovers the
loaded table exactly (same rows, same order, no row added or removed)
— and the region and risk-level filters only select sublists of the
table they are given, mutating no row. -/
theorem C9_derivation_and_filters_frame (df : List Row) (R : List String)
    (lf : LevelFilter) (dg : List DerivedRow) :
    (deriveAll df).map DerivedRow.toRow = df ∧
    List.Sublist (applyRegionFilter R dg) dg ∧
    List.Sublist (applyLevelFilter lf dg) dg := by
  refine ⟨?_, ?_, ?_⟩
  · have hrow : DerivedRow.toRow ∘ deriveRow = id := funext fun r => rfl
    simp [deriveAll, List.map_map, hrow]
  · unfold applyRegionFilter
    split_ifs
    · exact List.Sublist.refl dg
    · exact List.filter_sublist dg
  · cases lf with
    | all => exact List.Sublist.refl dg
    | only l => exact List.filter_sublist dg

/-! ### C10 — monotonicity of the risk score -/

/-- C10: with a fixed positive loan amount the risk score is monotone
non-decreasing in age (at equal income) and in income (at equal age):
in each case both rows get finite scores and the score of the larger
input is at least the score of the smaller one. -/
theorem C10_risk_score_monotone :
    (∀ r₁ r₂ : Row, r₁.loan_amount = r₂.loan_amount → 0 < r₂.loan_amount →
      r₁.income = r₂.income → r₁.age ≤ r₂.age →
      ∃ q₁ q₂ : ℚ, (deriveRow r₁).risk_score = Val.fin q₁ ∧
        (deriveRow r₂).risk_score = Val.fin q₂ ∧ q₁ ≤ q₂) ∧
    (∀ r₁ r₂ : Row, r₁.loan_amount = r₂.loan_amount → 0 < r₂.loan_amount →
      r₁.age = r₂.age → r₁.income ≤ r₂.income →
      ∃ q₁ q₂ : ℚ, (deriveRow r₁).risk_score = Val.fin q₁ ∧
        (deriveRow r₂).risk_score = Val.fin q₂ ∧ q₁ ≤ q₂) := by
  constructor
  · intro r₁ r₂ hL hLpos hI hA
    have hL1 : r₁.loan_amount ≠ 0 := by rw [hL]; exact ne_of_gt hLpos
    have hL2 : r₂.loan_amount ≠ 0 := ne_of_gt hLpos
    refine ⟨_, _, riskScore_of_loan_ne_zero r₁ hL1,
      riskScore_of_loan_ne_zero r₂ hL2, ?_⟩
    have key : r₁.income / r₁.loan_amount * (3/10) + r₁.age * (1/100) ≤
        r₂.income / r₂.loan_amount * (3/10) + r₂.age * (1/100) := by
      rw [hL, hI]
      have hmul := mul_le_mul_of_nonneg_right hA (by norm_num : (0:ℚ) ≤ 1/100)
      linarith
    exact max_le_max (le_refl 0) (min_le_min (le_refl 1) key)
  · intro r₁ r₂ hL hLpos hA hI
    have hL1 : r₁.loan_amount ≠ 0 := by rw [hL]; exact ne_of_gt hLpos
    have hL2 : r₂.loan_amount ≠ 0 := ne_of_gt hLpos
    refine ⟨_, _, riskScore_of_loan_ne_zero r₁ hL1,
      riskScore_of_loan_ne_zero r₂ hL2, ?_⟩
    have key : r₁.income / r₁.loan_amount * (3/10) + r₁.age * (1/100) ≤
        r₂.income / r₂.loan_amount * (3/10) + r₂.age * (1/100) := by
      rw [hL, hA]
      have hdiv : r₁.income / r₂.loan_amount ≤ r₂.income / r₂.loan_amount := by
        gcongr
      have hmul := mul_le_mul_of_nonneg_right hdiv (by norm_num : (0:ℚ) ≤ 3/10)
      linarith
    exact max_le_max (le_refl 0) (min_le_min (le_refl 1) key)

/-- C10 witness: the monotonicity theorem at two concrete age pairs
(ages 20 and 35 at income 1000, loan 2000) and income pairs (incomes
500 and 900 at age 28, loan 2000). -/
theorem C10_risk_score_monotone_witness :
    (∃ q₁ q₂ : ℚ,
      (deriveRow (mkRow 20 1000 2000 "Bono")).risk_score = Val.fin q₁ ∧
      (deriveRow (mkRow 35 1000 2000 "Bono")).risk_score = Val.fin q₂ ∧
      q₁ ≤ q₂) ∧
    (∃ q₁ q₂ : ℚ,
      (deriveRow (mkRow 28 500 2000 "Bono")).risk_score = Val.fin q₁ ∧
      (deriveRow (mkRow 28 900 2000 "Bono")).risk_score = Val.fin q₂ ∧
      q₁ ≤ q₂) :=
  ⟨C10_risk_score_monotone.1 (mkRow 20 1000 2000 "Bono") (mkRow 35 1000 2000 "Bono")
      rfl (by norm_num [mkRow]) rfl (by norm_num [mkRow]),
   C10_risk_score_monotone.2 (mkRow 28 500 2000 "Bono") (mkRow 28 900 2000 "Bono")
      rfl (by norm_num [mkRow]) rfl (by norm_num [mkRow])⟩
